import Mathlib

/-!
# The Zend compatibility shim of `main.cpp`

A shallow embedding of the three entry points of
`hphp/runtime/ext_zend_compat/php-src/main/main.cpp`:

* `php_error_docref0` : the context-qualified error reporter,
* `php_write`         : the sink-backed writer,
* `php_printf`        : the formatted print forwarder.

The three functions only talk to the host runtime.  Every call that crosses
that boundary is recorded as an `Event`; a run of a function is the list of
events it produced together with the way it ended (`Outcome`).  The host
itself is a record of the answers it gives (`Host`).

Machine integers: `int` is an `Int` in `[-2^31, 2^31)`, `uint` is a `Nat`
below `2^32`; conversions between the two are written out with `% 2^32`.
-/

namespace ZendCompat

/-! ## Machine integers -/

/-- The constant `INT_MAX` of a 32-bit `int`. -/
def INT_MAX : Nat := 2147483647

/-- The constant `INT_MIN` of a 32-bit `int`. -/
def INT_MIN : Int := -2147483648

/-- Number of values of a 32-bit word. -/
def WORD : Nat := 4294967296

/-- Implicit conversion `int -> uint`, as it happens when `php_printf` passes
its `int size` to the `uint size` parameter of `php_write`. -/
def int_to_uint (n : Int) : Nat := (n % (WORD : Int)).toNat

/-- The cast `(int)size` of a `uint` in `php_write`. -/
def uint_to_int (n : Nat) : Int :=
  if n % WORD < 2147483648 then ((n % WORD : Nat) : Int)
  else ((n % WORD : Nat) : Int) - (WORD : Int)

/-! ## Data crossing the host boundary -/

/-- One byte of a `char` buffer. -/
abbrev Byte := UInt8

/-- One captured variadic argument. -/
inductive VaArg where
  | int (v : Int)
  | str (s : String)
  deriving DecidableEq, Repr

/-- The captured argument pack (`va_list`), forwarded as a value. -/
abbrev va_list := List VaArg

/-- Modelled from the spec: the host severity enumeration `HPHP::ErrorMode`
(declared in `hphp/runtime/base/runtime-error.h`, which is not among the
sources at hand).  It is an `enum class` over `int`; a value of it is
represented by its underlying integer. -/
structure ErrorMode where
  val : Int
  deriving DecidableEq, Repr

/-- The cast `static_cast<HPHP::ErrorMode>(type)`: keeps the numeric value. -/
def static_cast_ErrorMode (type : Int) : ErrorMode := ⟨type⟩

/-- A call that leaves the shim. -/
inductive Event where
  /-- `HPHP::raise_message(mode, msg.c_str(), args)` -/
  | raise_message (mode : ErrorMode) (msg : String) (args : va_list)
  /-- `HPHP::g_context->write((const char*)buf, size)` -/
  | write (buf : List Byte) (size : Nat)
  /-- `free(buffer)` -/
  | free (buf : List Byte)
  deriving DecidableEq, Repr

/-- How a call ends. -/
inductive Outcome (α : Type) where
  /-- the function returned `v` -/
  | returned (v : α)
  /-- `always_assert` failed: the process is aborted on the spot -/
  | assert_failed
  /-- a host call raised; the failure propagates through the shim -/
  | host_failure
  deriving DecidableEq, Repr

/-- A run: the boundary events in program order, and the way the run ended. -/
structure Run (α : Type) where
  trace : List Event
  outcome : Outcome α
  deriving DecidableEq, Repr

/-- A run that only returns a value. -/
def Run.pure {α : Type} (v : α) : Run α := ⟨[], Outcome.returned v⟩

/-- Sequencing of statements: the second part runs only when the first
returned. -/
def Run.bind {α β : Type} (r : Run α) (k : α → Run β) : Run β :=
  match r.outcome with
  | Outcome.returned v => ⟨r.trace ++ (k v).trace, (k v).outcome⟩
  | Outcome.assert_failed => ⟨r.trace, Outcome.assert_failed⟩
  | Outcome.host_failure => ⟨r.trace, Outcome.host_failure⟩

instance : Monad Run where
  pure := Run.pure
  bind := Run.bind

/-- The statement `always_assert(c)`. -/
def always_assert (c : Bool) : Run Unit :=
  ⟨[], if c then Outcome.returned () else Outcome.assert_failed⟩

/-- A call into the host: the event happens, then the host either returns
(`ok = true`) or raises. -/
def host_call (e : Event) (ok : Bool) : Run Unit :=
  ⟨[e], if ok then Outcome.returned () else Outcome.host_failure⟩

/-- The call `free(buffer)` of the C library; it always returns. -/
def free (buffer : List Byte) : Run Unit :=
  ⟨[Event.free buffer], Outcome.returned ()⟩

/-- The host runtime as seen by one call of the shim. -/
structure Host where
  /-- `get_active_class_name(&space)`: the returned class name and `*space` -/
  get_active_class_name : String × String
  /-- `get_active_function_name()` -/
  get_active_function_name : String
  /-- whether `HPHP::raise_message` returns (`true`) or raises -/
  raise_message : ErrorMode → String → va_list → Bool
  /-- whether `HPHP::g_context->write` returns (`true`) or raises -/
  write : List Byte → Nat → Bool
  /-- `HPHP::vspprintf_ap(&buffer, 0, format, args)`: the allocated buffer
  and the returned `int` -/
  vspprintf_ap : String → va_list → List Byte × Int

/-- The call `HPHP::string_printf(msg, "%s%s%s(): ", a, b, c)`: the three
strings followed by the literal text of the format. -/
def string_printf (a b c : String) : String := a ++ b ++ c ++ "(): "

/-! ## The three entry points -/

set_option linter.unusedVariables false in
/-- The function `php_error_docref0(docref, type, format, ...)`. -/
def php_error_docref0 (host : Host) (docref : Option String) (type : Int)
    (format : String) (args : va_list) : Run Unit :=
  let class_name := host.get_active_class_name.1
  let space := host.get_active_class_name.2
  let msg := string_printf class_name space host.get_active_function_name
  let msg := msg ++ format
  let mode := static_cast_ErrorMode type
  host_call (Event.raise_message mode msg args) (host.raise_message mode msg args)

/-- The function `php_write(buf, size)`. -/
def php_write (host : Host) (buf : List Byte) (size : Nat) : Run Int := do
  always_assert (decide (size < INT_MAX))
  host_call (Event.write buf size) (host.write buf size)
  pure (uint_to_int size)

/-- The function `php_printf(format, ...)`. -/
def php_printf (host : Host) (format : String) (args : va_list) : Run Int := do
  let buffer := (host.vspprintf_ap format args).1
  let size := (host.vspprintf_ap format args).2
  let ret ← php_write host buffer (int_to_uint size)
  free buffer
  pure ret

/-! ## Observations on a trace -/

/-- The bytes the output sink is handed by one event: `buf[0..size)` for a
sink call, nothing otherwise. -/
def Event.forwarded : Event → List Byte
  | Event.write buf size => buf.take size
  | _ => []

/-- All bytes handed to the output sink during a run, in order. -/
def sink_bytes : List Event → List Byte
  | [] => []
  | e :: t => e.forwarded ++ sink_bytes t

/-- Number of calls of the output sink in a trace. -/
def sink_calls : List Event → Nat
  | [] => 0
  | Event.write _ _ :: t => sink_calls t + 1
  | _ :: t => sink_calls t

/-- Number of times `buffer` is released in a trace. -/
def free_calls (buffer : List Byte) : List Event → Nat
  | [] => 0
  | Event.free b :: t => if b = buffer then free_calls buffer t + 1 else free_calls buffer t
  | _ :: t => free_calls buffer t

/-- The severities handed to the error sink during a run, in order. -/
def raised_modes : List Event → List ErrorMode
  | [] => []
  | Event.raise_message mode _ _ :: t => mode :: raised_modes t
  | _ :: t => raised_modes t

/-- The message templates handed to the error sink during a run, in order. -/
def raised_templates : List Event → List String
  | [] => []
  | Event.raise_message _ msg _ :: t => msg :: raised_templates t
  | _ :: t => raised_templates t

/-! ## Host call-stack introspection -/

/-- Modelled from the spec: the host helper `get_active_class_name(&space)`,
which lives elsewhere in the runtime and is not among the sources at hand.
A call-site context names the active class, the empty string standing for
"no class is active".  The helper returns the class name and, through
`space`, the scope separator `::`; both are empty strings when no class is
active. -/
def get_active_class_name (active_class : String) : String × String :=
  if active_class = "" then ("", "") else (active_class, "::")

/-- The host `host` with the call-site context `(active_class,
active_function)` on top of its call stack. -/
def Host.at_call_site (host : Host) (active_class active_function : String) : Host :=
  Host.mk (ZendCompat.get_active_class_name active_class) active_function
    host.raise_message host.write host.vspprintf_ap

/-! ## Sample hosts used at concrete inputs -/

/-- The bytes of the text `5 items`. -/
def five_items : List Byte := [53, 32, 105, 116, 101, 109, 115]

/-- A host in which `Foo::bar` is executing, every host call returns, and the
formatting utility renders `5 items` (7 bytes). -/
def sampleHost : Host :=
  Host.mk ("Foo", "::") "bar" (fun _ _ _ => true) (fun _ _ => true)
    (fun _ _ => (five_items, 7))

/-- The same host with an output sink that raises. -/
def failingSinkHost : Host :=
  Host.mk ("Foo", "::") "bar" (fun _ _ _ => true) (fun _ _ => false)
    (fun _ _ => (five_items, 7))

/-- A host whose formatting utility reports the length `-1`. -/
def negativeLengthHost : Host :=
  Host.mk ("Foo", "::") "bar" (fun _ _ _ => true) (fun _ _ => true)
    (fun _ _ => ([], -1))

/-! ## Shared lemmas -/

theorem int_to_uint_of_nonneg (n : Int) (h0 : 0 ≤ n) (h1 : n < 4294967296) :
    int_to_uint n = n.toNat := by
  unfold int_to_uint WORD
  rw [Int.emod_eq_of_lt h0 (by simpa using h1)]

theorem int_to_uint_of_neg (n : Int) (h0 : -2147483648 ≤ n) (h1 : n < 0) :
    ((int_to_uint n : Nat) : Int) = n + 4294967296 := by
  unfold int_to_uint WORD
  omega

theorem php_printf_eq_bind (host : Host) (format : String) (args : va_list) :
    php_printf host format args
      = Run.bind
          (php_write host (host.vspprintf_ap format args).1
            (int_to_uint (host.vspprintf_ap format args).2))
          (fun ret => Run.bind (free (host.vspprintf_ap format args).1)
            (fun _ => Run.pure ret)) :=
  rfl

theorem uint_to_int_of_lt (n : Nat) (h : n < 2147483648) : uint_to_int n = (n : Int) := by
  have h1 : n % WORD = n := Nat.mod_eq_of_lt (by unfold WORD; omega)
  simp [uint_to_int, h1, h]

theorem php_write_of_lt (host : Host) (buf : List Byte) (size : Nat) (h : size < INT_MAX) :
    php_write host buf size =
      ⟨[Event.write buf size],
        if host.write buf size then Outcome.returned (size : Int) else Outcome.host_failure⟩ := by
  have h2 : uint_to_int size = (size : Int) :=
    uint_to_int_of_lt size (by unfold INT_MAX at h; omega)
  cases hw : host.write buf size <;>
    simp [php_write, bind, Run.bind, pure, Run.pure, always_assert, host_call, h, hw, h2]

theorem php_write_of_ge (host : Host) (buf : List Byte) (size : Nat) (h : INT_MAX ≤ size) :
    php_write host buf size = ⟨[], Outcome.assert_failed⟩ := by
  have h2 : ¬ size < INT_MAX := Nat.not_lt.mpr h
  simp [php_write, bind, Run.bind, always_assert, h2]

/-! ## The sink-backed writer -/

/-- C1, as the code has it: for every buffer and every size below `INT_MAX`
(`2^31 - 1`), `php_write` passes its assertion, calls the output sink exactly
once, with the buffer and the length `size`, so that the sink is handed the
first `size` bytes of the buffer, and, the sink having returned, returns
exactly `size`. -/
theorem php_write_forwards (host : Host) (buf : List Byte) (size : Nat)
    (h : size < INT_MAX) :
    (php_write host buf size).outcome ≠ Outcome.assert_failed ∧
    (php_write host buf size).trace = [Event.write buf size] ∧
    sink_calls (php_write host buf size).trace = 1 ∧
    sink_bytes (php_write host buf size).trace = buf.take size ∧
    (host.write buf size = true →
      (php_write host buf size).outcome = Outcome.returned (size : Int)) := by
  rw [php_write_of_lt host buf size h]
  refine ⟨?_, rfl, rfl, ?_, ?_⟩
  · cases host.write buf size <;> simp
  · simp [sink_bytes, Event.forwarded]
  · intro hw
    simp [hw]

theorem php_write_forwards_witness :
    (3 : Nat) < INT_MAX ∧
    ((php_write sampleHost [104, 105, 33, 0] 3).outcome ≠ Outcome.assert_failed ∧
     (php_write sampleHost [104, 105, 33, 0] 3).trace = [Event.write [104, 105, 33, 0] 3] ∧
     sink_calls (php_write sampleHost [104, 105, 33, 0] 3).trace = 1 ∧
     sink_bytes (php_write sampleHost [104, 105, 33, 0] 3).trace
       = List.take 3 [104, 105, 33, 0] ∧
     (sampleHost.write [104, 105, 33, 0] 3 = true →
       (php_write sampleHost [104, 105, 33, 0] 3).outcome
         = Outcome.returned ((3 : Nat) : Int))) :=
  ⟨by decide, php_write_forwards sampleHost [104, 105, 33, 0] 3 (by decide)⟩

/-- C1, as stated, fails at `size = 2^31 - 1`: that size is below `2^31`, yet
`php_write` on a buffer of that many bytes ends in the assertion failure,
without any call of the output sink and without a return value. -/
theorem php_write_rejects_INT_MAX :
    (2147483647 : Nat) < 2 ^ 31 ∧
    (List.replicate 2147483647 (0 : Byte)).length = 2147483647 ∧
    php_write sampleHost (List.replicate 2147483647 0) 2147483647
      = ⟨[], Outcome.assert_failed⟩ :=
  ⟨by decide, List.length_replicate _ _, php_write_of_ge _ _ _ (by decide)⟩

/-- C2: for every buffer and every `uint` size of at least `2^31`,
`php_write` ends in the assertion failure; the output sink is not called
and nothing is returned. -/
theorem php_write_asserts (host : Host) (buf : List Byte) (size : Nat)
    (hlo : 2 ^ 31 ≤ size) (hhi : size < 2 ^ 32) :
    (php_write host buf size).outcome = Outcome.assert_failed ∧
    (php_write host buf size).trace = [] ∧
    sink_calls (php_write host buf size).trace = 0 ∧
    sink_bytes (php_write host buf size).trace = [] ∧
    (∀ v, (php_write host buf size).outcome ≠ Outcome.returned v) := by
  rw [php_write_of_ge host buf size (by unfold INT_MAX; omega)]
  exact ⟨rfl, rfl, rfl, rfl, fun v hv => by cases hv⟩

theorem php_write_asserts_witness :
    ((2 : Nat) ^ 31 ≤ 2147483648 ∧ (2147483648 : Nat) < 2 ^ 32) ∧
    ((php_write sampleHost (List.replicate 2147483648 0) 2147483648).outcome
       = Outcome.assert_failed ∧
     (php_write sampleHost (List.replicate 2147483648 0) 2147483648).trace = [] ∧
     sink_calls (php_write sampleHost (List.replicate 2147483648 0) 2147483648).trace = 0 ∧
     sink_bytes (php_write sampleHost (List.replicate 2147483648 0) 2147483648).trace = [] ∧
     (∀ v, (php_write sampleHost (List.replicate 2147483648 0) 2147483648).outcome
       ≠ Outcome.returned v)) :=
  ⟨by decide,
   php_write_asserts sampleHost (List.replicate 2147483648 0) 2147483648
     (by decide) (by decide)⟩

/-! ## The context-qualified error reporter -/

/-- C3: whatever class name, separator and function name host introspection
returns, and for every severity code, format and argument pack,
`php_error_docref0` calls the error sink exactly once, with the template
`class ++ separator ++ function ++ "(): " ++ format` (the format appended as
it is) and with the argument pack of the caller; with `Foo`, `::`, `bar` and
the format `bad arg` the template is `Foo::bar(): bad arg`. -/
theorem php_error_docref0_template (cls sep fn : String)
    (raise : ErrorMode → String → va_list → Bool) (write : List Byte → Nat → Bool)
    (fmt : String → va_list → List Byte × Int)
    (docref : Option String) (type : Int) (format : String) (args : va_list) :
    (php_error_docref0 (Host.mk (cls, sep) fn raise write fmt) docref type format args).trace
      = [Event.raise_message (static_cast_ErrorMode type)
          (cls ++ sep ++ fn ++ "(): " ++ format) args] ∧
    (php_error_docref0 (Host.mk ("Foo", "::") "bar" raise write fmt) docref type
        "bad arg" []).trace
      = [Event.raise_message (static_cast_ErrorMode type) "Foo::bar(): bad arg" []] :=
  ⟨rfl, by simp [php_error_docref0, host_call, string_printf]⟩

/-- C4: the severity `php_error_docref0` hands to the error sink is exactly
one value, the cast of the severity code; it does not depend on the host
context, the docref, the format or the arguments, so repeated calls with the
same code give the same severity.  The cast is defined on every code, keeps
the numeric value, and is therefore injective and order-preserving. -/
theorem php_error_docref0_severity (host host2 : Host) (docref docref2 : Option String)
    (type : Int) (format format2 : String) (args args2 : va_list) :
    raised_modes (php_error_docref0 host docref type format args).trace
      = [static_cast_ErrorMode type] ∧
    raised_modes (php_error_docref0 host2 docref2 type format2 args2).trace
      = raised_modes (php_error_docref0 host docref type format args).trace ∧
    (static_cast_ErrorMode type).val = type ∧
    Function.Injective static_cast_ErrorMode ∧
    StrictMono (fun code : Int => (static_cast_ErrorMode code).val) :=
  ⟨rfl, rfl, rfl, fun _ _ h => congrArg ErrorMode.val h, fun _ _ h => h⟩

/-- C7: with the call-site context `(cls, fn)` on top of the host call
stack, the text `php_error_docref0` puts in front of the format is
`class ++ separator ++ function ++ "(): "`, where the separator is non-empty
only when the class is non-empty; with an empty class the text is exactly
`function ++ "(): "`. -/
theorem php_error_docref0_call_site (host : Host) (cls fn : String)
    (hc : host.get_active_class_name = get_active_class_name cls)
    (hf : host.get_active_function_name = fn)
    (docref : Option String) (type : Int) (format : String) (args : va_list) :
    raised_templates (php_error_docref0 host docref type format args).trace
      = [string_printf host.get_active_class_name.1 host.get_active_class_name.2
          host.get_active_function_name ++ format] ∧
    string_printf host.get_active_class_name.1 host.get_active_class_name.2
        host.get_active_function_name
      = cls ++ (get_active_class_name cls).2 ++ fn ++ "(): " ∧
    ((get_active_class_name cls).2 ≠ "" → cls ≠ "") ∧
    (cls ≠ "" → (get_active_class_name cls).2 = "::") ∧
    (cls = "" →
      string_printf host.get_active_class_name.1 host.get_active_class_name.2
          host.get_active_function_name
        = fn ++ "(): ") := by
  refine ⟨rfl, ?_, ?_, ?_, ?_⟩
  · rw [hc, hf]
    by_cases h : cls = "" <;> simp [get_active_class_name, string_printf, h]
  · intro hs hcls
    apply hs
    simp [get_active_class_name, hcls]
  · intro hcls
    simp [get_active_class_name, hcls]
  · intro hcls
    rw [hc, hf]
    simp [get_active_class_name, string_printf, hcls]

theorem php_error_docref0_call_site_witness :
    ((sampleHost.at_call_site "" "foo").get_active_class_name = get_active_class_name "" ∧
      (sampleHost.at_call_site "" "foo").get_active_function_name = "foo") ∧
    raised_templates
        (php_error_docref0 (sampleHost.at_call_site "" "foo") none 2 "bad arg" []).trace
      = ["foo(): bad arg"] ∧
    string_printf (sampleHost.at_call_site "" "foo").get_active_class_name.1
        (sampleHost.at_call_site "" "foo").get_active_class_name.2
        (sampleHost.at_call_site "" "foo").get_active_function_name
      = "foo(): " ∧
    string_printf (sampleHost.at_call_site "" "").get_active_class_name.1
        (sampleHost.at_call_site "" "").get_active_class_name.2
        (sampleHost.at_call_site "" "").get_active_function_name
      = "(): " ∧
    string_printf (sampleHost.at_call_site "Foo" "bar").get_active_class_name.1
        (sampleHost.at_call_site "Foo" "bar").get_active_class_name.2
        (sampleHost.at_call_site "Foo" "bar").get_active_function_name
      = "Foo::bar(): " :=
  ⟨⟨rfl, rfl⟩,
   (php_error_docref0_call_site (sampleHost.at_call_site "" "foo") "" "foo" rfl rfl
      none 2 "bad arg" []).1.trans (by decide),
   ((php_error_docref0_call_site (sampleHost.at_call_site "" "foo") "" "foo" rfl rfl
      none 2 "bad arg" []).2.2.2.2 rfl).trans (by decide),
   ((php_error_docref0_call_site (sampleHost.at_call_site "" "") "" "" rfl rfl
      none 2 "bad arg" []).2.2.2.2 rfl).trans (by decide),
   (php_error_docref0_call_site (sampleHost.at_call_site "Foo" "bar") "Foo" "bar" rfl rfl
      none 2 "bad arg" []).2.1.trans (by decide)⟩

/-- C8: with the empty format, the template handed to the error sink is the
call-site text `class ++ separator ++ function ++ "(): "` and nothing more. -/
theorem php_error_docref0_empty_format (cls sep fn : String)
    (raise : ErrorMode → String → va_list → Bool) (write : List Byte → Nat → Bool)
    (fmt : String → va_list → List Byte × Int)
    (docref : Option String) (type : Int) (args : va_list) :
    (php_error_docref0 (Host.mk (cls, sep) fn raise write fmt) docref type "" args).trace
      = [Event.raise_message (static_cast_ErrorMode type)
          (cls ++ sep ++ fn ++ "(): ") args] := by
  simp [php_error_docref0, host_call, string_printf]

/-- C10: the docref argument has no influence: two calls that differ only in
the docref give the same run, hence the same severity, template and
arguments at the error sink. -/
theorem php_error_docref0_ignores_docref (host : Host) (docref docref2 : Option String)
    (type : Int) (format : String) (args : va_list) :
    php_error_docref0 host docref type format args
      = php_error_docref0 host docref2 type format args :=
  rfl

/-! ## The formatted print forwarder -/

theorem php_printf_of_lt (host : Host) (format : String) (args : va_list)
    (h : int_to_uint (host.vspprintf_ap format args).2 < INT_MAX) :
    php_printf host format args =
      if host.write (host.vspprintf_ap format args).1
            (int_to_uint (host.vspprintf_ap format args).2) then
        ⟨[Event.write (host.vspprintf_ap format args).1
              (int_to_uint (host.vspprintf_ap format args).2),
            Event.free (host.vspprintf_ap format args).1],
          Outcome.returned ((int_to_uint (host.vspprintf_ap format args).2 : Nat) : Int)⟩
      else
        ⟨[Event.write (host.vspprintf_ap format args).1
              (int_to_uint (host.vspprintf_ap format args).2)],
          Outcome.host_failure⟩ := by
  rw [php_printf_eq_bind, php_write_of_lt _ _ _ h]
  cases host.write (host.vspprintf_ap format args).1
      (int_to_uint (host.vspprintf_ap format args).2) <;>
    simp [Run.bind, Run.pure, free]

theorem php_printf_of_ge (host : Host) (format : String) (args : va_list)
    (h : INT_MAX ≤ int_to_uint (host.vspprintf_ap format args).2) :
    php_printf host format args = ⟨[], Outcome.assert_failed⟩ := by
  rw [php_printf_eq_bind, php_write_of_ge _ _ _ h]
  rfl

/-- C5: when the formatting utility renders the buffer `b` of length `n`,
`php_printf` is one call of `php_write` on `b` and `n`, followed by the
release of `b`; it ends the way that call ends, so it returns exactly the
value the writer returns, and the output sink sees what that one call
forwards. -/
theorem php_printf_forwards (host : Host) (format : String) (args : va_list)
    (b : List Byte) (n : Int)
    (hr : host.vspprintf_ap format args = (b, n))
    (hn : n = (b.length : Int)) (hmax : b.length ≤ INT_MAX) :
    php_printf host format args
      = Run.bind (php_write host b b.length)
          (fun ret => Run.bind (free b) (fun _ => Run.pure ret)) ∧
    (php_printf host format args).outcome = (php_write host b b.length).outcome ∧
    sink_calls (php_printf host format args).trace
      = sink_calls (php_write host b b.length).trace ∧
    sink_bytes (php_printf host format args).trace
      = sink_bytes (php_write host b b.length).trace := by
  have hu : int_to_uint n = b.length := by
    rw [int_to_uint_of_nonneg n (by omega) (by unfold INT_MAX at hmax; omega), hn]
    simp
  have hb : (host.vspprintf_ap format args).1 = b := by rw [hr]
  have hs : (host.vspprintf_ap format args).2 = n := by rw [hr]
  have hbind := php_printf_eq_bind host format args
  rw [hb, hs, hu] at hbind
  refine ⟨hbind, ?_, ?_, ?_⟩ <;> rw [hbind] <;>
    rcases Nat.lt_or_ge b.length INT_MAX with hlt | hge
  · rw [php_write_of_lt host b b.length hlt]
    cases host.write b b.length <;> rfl
  · rw [php_write_of_ge host b b.length hge]
    rfl
  · rw [php_write_of_lt host b b.length hlt]
    cases host.write b b.length <;> rfl
  · rw [php_write_of_ge host b b.length hge]
    rfl
  · rw [php_write_of_lt host b b.length hlt]
    cases host.write b b.length <;> simp [Run.bind, Run.pure, free, sink_bytes, Event.forwarded]
  · rw [php_write_of_ge host b b.length hge]
    rfl

theorem php_printf_forwards_witness :
    (sampleHost.vspprintf_ap "%d items" [VaArg.int 5] = (five_items, 7) ∧
      (7 : Int) = (five_items.length : Int) ∧ five_items.length ≤ INT_MAX) ∧
    (php_printf sampleHost "%d items" [VaArg.int 5]).outcome
      = (php_write sampleHost five_items 7).outcome ∧
    (php_write sampleHost five_items 7).trace = [Event.write five_items 7] ∧
    (php_printf sampleHost "%d items" [VaArg.int 5]).outcome = Outcome.returned 7 :=
  ⟨⟨rfl, by decide, by decide⟩,
   (php_printf_forwards sampleHost "%d items" [VaArg.int 5] five_items 7 rfl
      (by decide) (by decide)).2.1,
   rfl, rfl⟩

/-- The release on the returning path: whenever the write step returns,
`php_printf` releases the rendered buffer exactly once, after the sink call,
and returns what the write step returned; on no path is the buffer released
more than once. -/
theorem php_printf_releases (host : Host) (format : String) (args : va_list) :
    (∀ v, (php_write host (host.vspprintf_ap format args).1
            (int_to_uint (host.vspprintf_ap format args).2)).outcome = Outcome.returned v →
      (php_printf host format args).trace
        = (php_write host (host.vspprintf_ap format args).1
            (int_to_uint (host.vspprintf_ap format args).2)).trace
          ++ [Event.free (host.vspprintf_ap format args).1] ∧
      free_calls (host.vspprintf_ap format args).1 (php_printf host format args).trace = 1 ∧
      (php_printf host format args).outcome = Outcome.returned v) ∧
    free_calls (host.vspprintf_ap format args).1 (php_printf host format args).trace ≤ 1 := by
  rcases Nat.lt_or_ge (int_to_uint (host.vspprintf_ap format args).2) INT_MAX with hlt | hge
  · rw [php_printf_of_lt host format args hlt, php_write_of_lt _ _ _ hlt]
    cases host.write (host.vspprintf_ap format args).1
        (int_to_uint (host.vspprintf_ap format args).2) <;>
      simp [free_calls]
  · rw [php_printf_of_ge host format args hge, php_write_of_ge _ _ _ hge]
    simp [free_calls]

theorem php_printf_releases_witness :
    (php_write sampleHost five_items 7).outcome = Outcome.returned 7 ∧
    (php_printf sampleHost "%d items" [VaArg.int 5]).trace
      = [Event.write five_items 7, Event.free five_items] ∧
    free_calls five_items (php_printf sampleHost "%d items" [VaArg.int 5]).trace = 1 ∧
    (php_printf sampleHost "%d items" [VaArg.int 5]).outcome = Outcome.returned 7 :=
  ⟨rfl, (php_printf_releases sampleHost "%d items" [VaArg.int 5]).1 7 rfl⟩

/-- C6 does not hold of the code when the output sink raises: the formatting
utility accepted the input and rendered `5 items`, the sink was called, and
the run ends in the propagated failure with the rendered buffer never
released, whereas the same call with a returning sink releases it once. -/
theorem php_printf_leaks_on_sink_failure :
    failingSinkHost.vspprintf_ap "%d items" [VaArg.int 5] = (five_items, 7) ∧
    (php_printf failingSinkHost "%d items" [VaArg.int 5]).outcome = Outcome.host_failure ∧
    (php_printf failingSinkHost "%d items" [VaArg.int 5]).trace
      = [Event.write five_items 7] ∧
    free_calls five_items (php_printf failingSinkHost "%d items" [VaArg.int 5]).trace = 0 ∧
    free_calls five_items (php_printf failingSinkHost "%d items" [VaArg.int 5]).trace ≠ 1 ∧
    free_calls five_items (php_printf sampleHost "%d items" [VaArg.int 5]).trace = 1 :=
  ⟨rfl, rfl, rfl, rfl, by decide, rfl⟩

/-- C9: for a reported length `n` in the range of `int`: if `n` is negative,
`php_write` receives `n + 2^32`, which is at least `2^31`, and the call ends
in the assertion failure with no sink call; if `php_printf` returns, then
`0 ≤ n < INT_MAX` and the value returned is `n`; and for such `n` it does
return `n` once the sink call returns. -/
theorem php_printf_length (host : Host) (format : String) (args : va_list)
    (hmin : INT_MIN ≤ (host.vspprintf_ap format args).2)
    (hmax : (host.vspprintf_ap format args).2 ≤ (INT_MAX : Int)) :
    ((host.vspprintf_ap format args).2 < 0 →
      ((int_to_uint (host.vspprintf_ap format args).2 : Nat) : Int)
          = (host.vspprintf_ap format args).2 + 4294967296 ∧
      2147483648 ≤ int_to_uint (host.vspprintf_ap format args).2 ∧
      php_printf host format args = ⟨[], Outcome.assert_failed⟩ ∧
      sink_calls (php_printf host format args).trace = 0) ∧
    (∀ v, (php_printf host format args).outcome = Outcome.returned v →
      0 ≤ (host.vspprintf_ap format args).2 ∧
      (host.vspprintf_ap format args).2 < (INT_MAX : Int) ∧
      v = (host.vspprintf_ap format args).2) ∧
    (0 ≤ (host.vspprintf_ap format args).2 →
      (host.vspprintf_ap format args).2 < (INT_MAX : Int) →
      host.write (host.vspprintf_ap format args).1
          (int_to_uint (host.vspprintf_ap format args).2) = true →
      (php_printf host format args).outcome
        = Outcome.returned (host.vspprintf_ap format args).2) := by
  generalize hn : (host.vspprintf_ap format args).2 = n at hmin hmax
  unfold INT_MIN at hmin
  unfold INT_MAX at hmax
  have key : ∀ v, (php_printf host format args).outcome = Outcome.returned v →
      0 ≤ n ∧ n < (INT_MAX : Int) ∧ v = n := by
    intro v hv
    rcases Nat.lt_or_ge (int_to_uint (host.vspprintf_ap format args).2) INT_MAX with hlt | hge
    · rw [php_printf_of_lt host format args hlt] at hv
      rw [hn] at hlt hv
      have hnn : 0 ≤ n := by
        by_contra hneg
        have := int_to_uint_of_neg n hmin (by omega)
        unfold INT_MAX at hlt
        omega
      have hu := int_to_uint_of_nonneg n hnn (by omega)
      cases hw : host.write (host.vspprintf_ap format args).1 (int_to_uint n)
      · rw [hw] at hv
        simp at hv
      · rw [hw] at hv
        simp only [if_true] at hv
        injection hv with hv
        rw [hu] at hlt hv
        unfold INT_MAX at hlt ⊢
        omega
    · rw [php_printf_of_ge host format args hge] at hv
      cases hv
  refine ⟨?_, ?_, ?_⟩
  · intro hneg
    have hu := int_to_uint_of_neg n hmin hneg
    have hge : INT_MAX ≤ int_to_uint (host.vspprintf_ap format args).2 := by
      rw [hn]
      unfold INT_MAX
      omega
    refine ⟨hu, by omega, php_printf_of_ge host format args hge, ?_⟩
    rw [php_printf_of_ge host format args hge]
    rfl
  · exact key
  · intro h0 h1 hw
    have hu := int_to_uint_of_nonneg n h0 (by omega)
    have hlt : int_to_uint (host.vspprintf_ap format args).2 < INT_MAX := by
      rw [hn, hu]
      unfold INT_MAX at h1 ⊢
      omega
    rw [php_printf_of_lt host format args hlt, hn] at *
    rw [hw]
    simp only [if_true]
    rw [hu]
    congr 1
    omega

theorem php_printf_length_witness :
    (INT_MIN ≤ (negativeLengthHost.vspprintf_ap "%s" []).2 ∧
      (negativeLengthHost.vspprintf_ap "%s" []).2 ≤ (INT_MAX : Int) ∧
      (negativeLengthHost.vspprintf_ap "%s" []).2 < 0) ∧
    (((int_to_uint (-1) : Nat) : Int) = -1 + 4294967296 ∧
      2147483648 ≤ int_to_uint (-1) ∧
      php_printf negativeLengthHost "%s" [] = ⟨[], Outcome.assert_failed⟩ ∧
      sink_calls (php_printf negativeLengthHost "%s" []).trace = 0) ∧
    (php_printf sampleHost "%d items" [VaArg.int 5]).outcome = Outcome.returned 7 :=
  ⟨⟨by decide, by decide, by decide⟩,
   (php_printf_length negativeLengthHost "%s" [] (by decide) (by decide)).1 (by decide),
   (php_printf_length sampleHost "%d items" [VaArg.int 5] (by decide) (by decide)).2.2
     (by decide) (by decide) rfl⟩

end ZendCompat
